import Mathlib

/-!
Verification of the YM studio single-page fitness app (two App.jsx variants:
the workout-tracking variant `AppW` and the sessions/groups/store variant
`AppS`).  The Lean definitions below are a shallow embedding of the
load/seed layer and the mutation handlers; localStorage reads are modelled
by a `Stored` input per collection (missing key / corrupt JSON / parsed
value), `generateId` by an explicit id supply, and `crypto.subtle.digest`
by a pure SHA-256 implementation.
-/

/-- Truncate to a 32-bit word, as JS `>>> 0` / the SHA-256 word size. -/
def w32 (n : Nat) : Nat := n % 4294967296

/-- 32-bit right rotation. -/
def rotr32 (n x : Nat) : Nat := w32 ((x >>> n) ||| (x <<< (32 - n)))

/-- The SHA-256 round constants, in decimal. -/
def sha256K : List Nat :=
  [1116352408, 1899447441, 3049323471, 3921009573, 961987163,
   1508970993, 2453635748, 2870763221, 3624381080, 310598401,
   607225278, 1426881987, 1925078388, 2162078206, 2614888103,
   3248222580, 3835390401, 4022224774, 264347078, 604807628,
   770255983, 1249150122, 1555081692, 1996064986, 2554220882,
   2821834349, 2952996808, 3210313671, 3336571891, 3584528711,
   113926993, 338241895, 666307205, 773529912, 1294757372,
   1396182291, 1695183700, 1986661051, 2177026350, 2456956037,
   2730485921, 2820302411, 3259730800, 3345764771, 3516065817,
   3600352804, 4094571909, 275423344, 430227734, 506948616,
   659060556, 883997877, 958139571, 1322822218, 1537002063,
   1747873779, 1955562222, 2024104815, 2227730452, 2361852424,
   2428436474, 2756734187, 3204031479, 3329325298]

/-- The eight 32-bit words of a SHA-256 state. -/
structure Hash8 where
  a : Nat
  b : Nat
  c : Nat
  d : Nat
  e : Nat
  f : Nat
  g : Nat
  h : Nat
  deriving Repr, DecidableEq

/-- The SHA-256 initial hash value, in decimal. -/
def sha256H0 : Hash8 :=
  ⟨1779033703, 3144134277, 1013904242, 2773480762,
   1359893119, 2600822924, 528734635, 1541459225⟩

/-- The `k` low bytes of `n`, big-endian. -/
def toBytesBE : Nat → Nat → List Nat
  | 0, _ => []
  | k + 1, n => toBytesBE k (n / 256) ++ [n % 256]

/-- SHA-256 message padding: a `0x80` byte, zeros, then the 64-bit bit length. -/
def sha256pad (msg : List Nat) : List Nat :=
  let padZeros := (64 - (msg.length + 9) % 64) % 64
  msg ++ [128] ++ List.replicate padZeros 0 ++ toBytesBE 8 (msg.length * 8)

/-- Split a list of bytes into `n` chunks of 64. -/
def chunksLoop : Nat → List Nat → List (List Nat)
  | 0, _ => []
  | n + 1, l => l.take 64 :: chunksLoop n (l.drop 64)

/-- All 64-byte chunks of a padded message. -/
def chunks64 (l : List Nat) : List (List Nat) := chunksLoop (l.length / 64) l

/-- Group bytes into 32-bit big-endian words (`n` words). -/
def wordsLoop : Nat → List Nat → List Nat
  | 0, _ => []
  | n + 1, bs =>
      (bs.getD 0 0 * 16777216 + bs.getD 1 0 * 65536 + bs.getD 2 0 * 256 + bs.getD 3 0)
        :: wordsLoop n (bs.drop 4)

/-- A 64-byte chunk as sixteen 32-bit words. -/
def bytesToWords (bs : List Nat) : List Nat := wordsLoop (bs.length / 4) bs

/-- Extend the 16-word schedule by `n` further words. -/
def extendLoop : Nat → List Nat → List Nat
  | 0, ws => ws
  | n + 1, ws =>
      let i := ws.length
      let w15 := ws.getD (i - 15) 0
      let w2 := ws.getD (i - 2) 0
      let w16 := ws.getD (i - 16) 0
      let w7 := ws.getD (i - 7) 0
      let s0 := rotr32 7 w15 ^^^ rotr32 18 w15 ^^^ (w15 >>> 3)
      let s1 := rotr32 17 w2 ^^^ rotr32 19 w2 ^^^ (w2 >>> 10)
      extendLoop n (ws ++ [w32 (w16 + s0 + w7 + s1)])

/-- One SHA-256 compression round. -/
def sha256round (st : Hash8) (k w : Nat) : Hash8 :=
  let S1 := rotr32 6 st.e ^^^ rotr32 11 st.e ^^^ rotr32 25 st.e
  let ch := (st.e &&& st.f) ^^^ ((st.e ^^^ 4294967295) &&& st.g)
  let temp1 := w32 (st.h + S1 + ch + k + w)
  let S0 := rotr32 2 st.a ^^^ rotr32 13 st.a ^^^ rotr32 22 st.a
  let maj := (st.a &&& st.b) ^^^ (st.a &&& st.c) ^^^ (st.b &&& st.c)
  let temp2 := w32 (S0 + maj)
  ⟨w32 (temp1 + temp2), st.a, st.b, st.c, w32 (st.d + temp1), st.e, st.f, st.g⟩

/-- Run the 64 compression rounds over the zipped constants/schedule. -/
def sha256rounds : Hash8 → List (Nat × Nat) → Hash8
  | st, [] => st
  | st, (k, w) :: rest => sha256rounds (sha256round st k w) rest

/-- Process one 64-byte chunk. -/
def sha256chunk (H : Hash8) (chunk : List Nat) : Hash8 :=
  let ws := extendLoop 48 (bytesToWords chunk)
  let st := sha256rounds H (sha256K.zip ws)
  ⟨w32 (H.a + st.a), w32 (H.b + st.b), w32 (H.c + st.c), w32 (H.d + st.d),
   w32 (H.e + st.e), w32 (H.f + st.f), w32 (H.g + st.g), w32 (H.h + st.h)⟩

/-- A 32-bit word as four big-endian bytes. -/
def word4 (w : Nat) : List Nat := [w / 16777216 % 256, w / 65536 % 256, w / 256 % 256, w % 256]

/-- SHA-256 of a byte sequence, as 32 bytes. -/
def sha256bytes (msg : List Nat) : List Nat :=
  let Hf := (chunks64 (sha256pad msg)).foldl sha256chunk sha256H0
  word4 Hf.a ++ word4 Hf.b ++ word4 Hf.c ++ word4 Hf.d ++
  word4 Hf.e ++ word4 Hf.f ++ word4 Hf.g ++ word4 Hf.h

/-- UTF-8 encoding of one character (what `TextEncoder().encode` emits). -/
def utf8Char (c : Char) : List Nat :=
  let n := c.toNat
  if n < 128 then [n]
  else if n < 2048 then [192 + n / 64, 128 + n % 64]
  else if n < 65536 then [224 + n / 4096, 128 + n / 64 % 64, 128 + n % 64]
  else [240 + n / 262144, 128 + n / 4096 % 64, 128 + n / 64 % 64, 128 + n % 64]

/-- UTF-8 encoding of a string. -/
def utf8Bytes (s : String) : List Nat := (s.data.map utf8Char).flatten

/-- Lowercase hex digit for `n < 16`: `b.toString(16)`. -/
def hexDigit (n : Nat) : Char := if n < 10 then Char.ofNat (48 + n) else Char.ofNat (87 + n)

/-- One byte as two lowercase hex characters: `b.toString(16).padStart(2, '0')`. -/
def byteToHex (b : Nat) : List Char := [hexDigit (b / 16), hexDigit (b % 16)]

/-- Bytes as a lowercase hex string. -/
def bytesToHex (bs : List Nat) : String := ⟨(bs.map byteToHex).flatten⟩

/-- hashPassword (both App.jsx variants): SHA-256 of the UTF-8 bytes of the
password, rendered as lowercase hex. -/
def hashPassword (password : String) : String := bytesToHex (sha256bytes (utf8Bytes password))

set_option maxRecDepth 100000

/-- Outcome of `localStorage.getItem` followed by `JSON.parse` for one
collection key: the key is absent, the stored string is not valid JSON
(the `catch` branch fires), or a well-formed collection was parsed. -/
inductive Stored (α : Type) where
  | missing
  | corrupt
  | parsed (v : α)
  deriving Repr, DecidableEq

/-- The collection value after the read/parse/catch block and before
seeding: absent keys and corrupt JSON both leave the empty array. -/
def loadRaw : Stored (List α) → List α
  | .missing => []
  | .corrupt => []
  | .parsed v => v

namespace AppS

/-! Embedding of the sessions/groups/store variant of App.jsx
(src/unnamed/part_001). -/

/-- The optional per-metric goal fields of a user's `goals` object. -/
structure Goals where
  weight : Option Rat := none
  bodyFat : Option Rat := none
  chest : Option Rat := none
  waist : Option Rat := none
  deriving Repr, DecidableEq

/-- One body-metric snapshot appended by addMetric. -/
structure MetricEntry where
  date : String
  weight : Rat
  bodyFat : Rat
  chest : Rat
  waist : Rat
  deriving Repr, DecidableEq

/-- A user record of the sessions variant. -/
structure User where
  id : String
  username : String
  password : String
  role : String
  fullName : String
  email : String
  phone : String
  goals : Goals
  waterGoal : Rat
  assignedProgramId : Option String
  joinedSessions : List String
  joinedGroups : List String
  purchasedProducts : List String
  metrics : List MetricEntry
  deriving Repr, DecidableEq

/-- An exercise embedded in a program (sessions variant: `rest` is a string). -/
structure ProgExercise where
  name : String
  sets : Int
  reps : Int
  rest : String
  notes : String
  video : String
  deriving Repr, DecidableEq

/-- A workout program. -/
structure Program where
  id : String
  name : String
  description : String
  exercises : List ProgExercise
  deriving Repr, DecidableEq

/-- A scheduled class with a participant list. -/
structure Session where
  id : String
  title : String
  date : String
  time : String
  capacity : Int
  description : String
  participants : List String
  deriving Repr, DecidableEq

/-- A group with a member list. -/
structure Group where
  id : String
  title : String
  date : String
  time : String
  capacity : Int
  description : String
  members : List String
  deriving Repr, DecidableEq

/-- A store product. -/
structure Product where
  id : String
  name : String
  price : Rat
  description : String
  deriving Repr, DecidableEq

/-- The default admin and demo accounts seeded into an empty users
collection; `ids` supplies the `generateId()` results. -/
def seedUsers (ids : Nat → String) : List User :=
  [{ id := ids 0, username := "admin", password := "admin", role := "trainer",
     fullName := "מנהל סטודיו", email := "", phone := "", goals := {},
     waterGoal := 2, assignedProgramId := none, joinedSessions := [],
     joinedGroups := [], purchasedProducts := [], metrics := [] },
   { id := ids 1, username := "demo", password := "demo", role := "client",
     fullName := "מתאמן דמו", email := "", phone := "", goals := {},
     waterGoal := 2, assignedProgramId := none, joinedSessions := [],
     joinedGroups := [], purchasedProducts := [], metrics := [] }]

/-- The basic program seeded into an empty programs collection. -/
def seedPrograms (ids : Nat → String) : List Program :=
  [{ id := ids 2, name := "תוכנית בסיסית", description := "תוכנית כללית לשיפור הכושר",
     exercises := [
       { name := "סקוואט", sets := 3, reps := 12, rest := "60",
         notes := "שמור על גב ישר", video := "" },
       { name := "לחיצת חזה", sets := 3, reps := 10, rest := "60",
         notes := "", video := "" }] }]

/-- The five collections returned by loadData. -/
structure LoadedData where
  users : List User
  programs : List Program
  sessions : List Session
  groups : List Group
  products : List Product
  deriving Repr, DecidableEq

/-- loadData of the sessions variant: parse each collection from storage
(missing key or corrupt JSON yielding the empty array) and seed the users
and programs collections exactly when they come out empty. -/
def loadData (ids : Nat → String) (usersIn : Stored (List User))
    (programsIn : Stored (List Program)) (sessionsIn : Stored (List Session))
    (groupsIn : Stored (List Group)) (productsIn : Stored (List Product)) : LoadedData :=
  let users0 := loadRaw usersIn
  let users := if users0.length == 0 then seedUsers ids else users0
  let programs0 := loadRaw programsIn
  let programs := if programs0.length == 0 then seedPrograms ids else programs0
  { users := users, programs := programs, sessions := loadRaw sessionsIn,
    groups := loadRaw groupsIn, products := loadRaw productsIn }

/-- The in-memory application state: the five collections plus the
authenticated-user pointer. -/
structure AppState where
  users : List User
  programs : List Program
  sessions : List Session
  groups : List Group
  products : List Product
  currentUser : Option User
  deriving Repr, DecidableEq

/-- The structured result of handleLogin / handleRegister. -/
structure AuthResult where
  success : Bool
  message : Option String
  deriving Repr, DecidableEq

/-- handleLogin: find the user by exact username; hash the input iff the
stored credential has length 64; on success set the current user. -/
def handleLogin (st : AppState) (username password : String) : AuthResult × AppState :=
  match st.users.find? (fun u => u.username == username) with
  | none => (⟨false, some "משתמש לא נמצא"⟩, st)
  | some user =>
      let inputPass := if user.password.length == 64 then hashPassword password else password
      if inputPass != user.password then
        (⟨false, some "סיסמה שגויה"⟩, st)
      else
        (⟨true, none⟩, { st with currentUser := some user })

/-- handleRegister: reject empty username/password or a taken username,
otherwise append a fresh user whose password is the SHA-256 hex digest. -/
def handleRegister (st : AppState) (newId username password role : String) :
    AuthResult × AppState :=
  if username == "" || password == "" then
    (⟨false, some "נא למלא שם משתמש וסיסמה"⟩, st)
  else if (st.users.find? (fun u => u.username == username)).isSome then
    (⟨false, some "שם משתמש כבר קיים"⟩, st)
  else
    let newUser : User :=
      { id := newId, username := username, password := hashPassword password, role := role,
        fullName := "", email := "", phone := "", goals := {}, waterGoal := 2,
        assignedProgramId := none, joinedSessions := [], joinedGroups := [],
        purchasedProducts := [], metrics := [] }
    (⟨true, some "נרשמת בהצלחה"⟩, { st with users := st.users ++ [newUser] })

/-- bookSession: with no current user, return unchanged; otherwise add the
user's id to the session's participants when not already present and below
capacity, and append the session id to the user's joinedSessions
unconditionally (exactly the two setState calls of the source). -/
def bookSession (st : AppState) (sessionId : String) : AppState :=
  match st.currentUser with
  | none => st
  | some cu =>
      { st with
        sessions := st.sessions.map (fun s =>
          if s.id == sessionId then
            if s.participants.contains cu.id then s
            else if (s.participants.length : Int) ≥ s.capacity then s
            else { s with participants := s.participants ++ [cu.id] }
          else s),
        users := st.users.map (fun u =>
          if u.id == cu.id then { u with joinedSessions := u.joinedSessions ++ [sessionId] }
          else u) }

/-- joinGroup: same shape as bookSession with a combined guard. -/
def joinGroup (st : AppState) (groupId : String) : AppState :=
  match st.currentUser with
  | none => st
  | some cu =>
      { st with
        groups := st.groups.map (fun g =>
          if g.id == groupId then
            if g.members.contains cu.id || (g.members.length : Int) ≥ g.capacity then g
            else { g with members := g.members ++ [cu.id] }
          else g),
        users := st.users.map (fun u =>
          if u.id == cu.id then { u with joinedGroups := u.joinedGroups ++ [groupId] }
          else u) }

/-- purchaseProduct: guard the missing user, then look the current user up
in the users collection (`none` models the null dereference that would be a
TypeError if the lookup failed) and append the product id to their
purchased list unless already present. -/
def purchaseProduct (st : AppState) (productId : String) : Option AppState :=
  match st.currentUser with
  | none => some st
  | some cu =>
      match st.users.find? (fun u => u.id == cu.id) with
      | none => none
      | some user =>
          if user.purchasedProducts.contains productId then some st
          else some { st with users := st.users.map (fun u =>
            if u.id == cu.id then
              { u with purchasedProducts := u.purchasedProducts ++ [productId] }
            else u) }

end AppS

namespace AppW

/-! Embedding of the workout-tracking variant of App.jsx
(src/unnamed/part_000). -/

/-- The optional per-metric goal fields of a user's `goals` object. -/
structure Goals where
  weight : Option Rat := none
  bodyFat : Option Rat := none
  chest : Option Rat := none
  waist : Option Rat := none
  deriving Repr, DecidableEq

/-- One body-metric snapshot appended by addMetric. -/
structure MetricEntry where
  date : String
  weight : Rat
  bodyFat : Rat
  chest : Rat
  waist : Rat
  deriving Repr, DecidableEq

/-- A user record of the workout variant (completed-workout id list
instead of joined-session/group/product lists). -/
structure User where
  id : String
  username : String
  password : String
  role : String
  fullName : String
  email : String
  phone : String
  goals : Goals
  waterGoal : Rat
  assignedProgramId : Option String
  completedWorkouts : List String
  metrics : List MetricEntry
  deriving Repr, DecidableEq

/-- An exercise embedded in a program (workout variant). -/
structure ProgExercise where
  id : String
  name : String
  sets : Int
  reps : Int
  weight : Rat
  rest : Int
  notes : String
  muscleGroup : String
  video : String
  completed : Bool
  deriving Repr, DecidableEq

/-- A workout program (workout variant). -/
structure Program where
  id : String
  name : String
  description : String
  difficulty : String
  duration : String
  targetMuscles : List String
  exercises : List ProgExercise
  deriving Repr, DecidableEq

/-- One completed set recorded during a workout. -/
structure SetResult where
  reps : Int
  weight : Rat
  deriving Repr, DecidableEq

/-- Per-exercise results snapshot passed to completeWorkout. -/
structure ExerciseResult where
  exerciseId : String
  name : String
  sets : Int
  completedSets : List SetResult
  notes : String
  deriving Repr, DecidableEq

/-- A workout-log entry appended by completeWorkout. -/
structure Workout where
  id : String
  userId : String
  programId : String
  date : String
  exercises : List ExerciseResult
  notes : String
  duration : Rat
  deriving Repr, DecidableEq

/-- A library exercise. -/
structure Exercise where
  id : String
  name : String
  muscleGroup : String
  equipment : String
  deriving Repr, DecidableEq

/-- The default admin and demo accounts of the workout variant. -/
def seedUsers (ids : Nat → String) : List User :=
  [{ id := ids 0, username := "admin", password := "admin", role := "trainer",
     fullName := "מנהל סטודיו", email := "", phone := "", goals := {},
     waterGoal := 2, assignedProgramId := none, completedWorkouts := [], metrics := [] },
   { id := ids 1, username := "demo", password := "demo", role := "client",
     fullName := "מתאמן דמו", email := "", phone := "", goals := {},
     waterGoal := 2, assignedProgramId := none, completedWorkouts := [], metrics := [] }]

/-- The basic program seeded into an empty programs collection. -/
def seedPrograms (ids : Nat → String) : List Program :=
  [{ id := ids 2, name := "תוכנית בסיסית", description := "תוכנית כללית לשיפור הכושר",
     difficulty := "בינוני", duration := "45 דקות",
     targetMuscles := ["רגליים", "חזה", "גב"],
     exercises := [
       { id := ids 3, name := "סקוואט", sets := 3, reps := 12, weight := 0, rest := 60,
         notes := "שמור על גב ישר", muscleGroup := "רגליים", video := "", completed := false },
       { id := ids 4, name := "לחיצת חזה", sets := 3, reps := 10, weight := 0, rest := 60,
         notes := "נשימה נכונה", muscleGroup := "חזה", video := "", completed := false }] }]

/-- The six-entry default exercise library. -/
def seedExercises (ids : Nat → String) : List Exercise :=
  [{ id := ids 5, name := "סקוואט", muscleGroup := "רגליים", equipment := "משקל גוף" },
   { id := ids 6, name := "לחיצת חזה", muscleGroup := "חזה", equipment := "משקולות" },
   { id := ids 7, name := "משיכת גב", muscleGroup := "גב", equipment := "כבל" },
   { id := ids 8, name := "לחיצת כתפיים", muscleGroup := "כתפיים", equipment := "משקולות" },
   { id := ids 9, name := "סיבובי בטן", muscleGroup := "בטן", equipment := "משקל גוף" },
   { id := ids 10, name := "דדליפט", muscleGroup := "רגליים", equipment := "משקולות" }]

/-- The four collections returned by loadData of the workout variant. -/
structure LoadedData where
  users : List User
  programs : List Program
  workouts : List Workout
  exercises : List Exercise
  deriving Repr, DecidableEq

/-- loadData of the workout variant: parse each collection from storage
(missing key or corrupt JSON yielding the empty array) and seed users,
programs and the exercise library exactly when they come out empty; the
workout log is never seeded. -/
def loadData (ids : Nat → String) (usersIn : Stored (List User))
    (programsIn : Stored (List Program)) (workoutsIn : Stored (List Workout))
    (exercisesIn : Stored (List Exercise)) : LoadedData :=
  let users0 := loadRaw usersIn
  let users := if users0.length == 0 then seedUsers ids else users0
  let programs0 := loadRaw programsIn
  let programs := if programs0.length == 0 then seedPrograms ids else programs0
  let exercises0 := loadRaw exercisesIn
  let exercises := if exercises0.length == 0 then seedExercises ids else exercises0
  { users := users, programs := programs, workouts := loadRaw workoutsIn,
    exercises := exercises }

/-- The in-memory application state of the workout variant. -/
structure AppState where
  users : List User
  programs : List Program
  workouts : List Workout
  exercises : List Exercise
  currentUser : Option User
  deriving Repr, DecidableEq

/-- completeWorkout: build a workout record stamped with the current user's
id and the current timestamp, append it to the workout log, and append its
id to that user's completedWorkouts.  With no current user the source
dereferences `currentUser.id` on null, an abrupt TypeError, modelled as
`none`; `now` is the `new Date().toISOString()` value and `newId` the
`generateId()` result. -/
def completeWorkout (st : AppState) (programId : String)
    (exerciseResults : List ExerciseResult) (notes : String)
    (now newId : String) : Option AppState :=
  match st.currentUser with
  | none => none
  | some cu =>
      let workout : Workout :=
        { id := newId, userId := cu.id, programId := programId, date := now,
          exercises := exerciseResults, notes := notes, duration := 0 }
      some { st with
        workouts := st.workouts ++ [workout],
        users := st.users.map (fun u =>
          if u.id == cu.id then
            { u with completedWorkouts := u.completedWorkouts ++ [workout.id] }
          else u) }

end AppW

/-! Concrete sample data for scenario theorems and witnesses. -/

/-- An id supply standing in for successive `generateId()` draws. -/
def sampleIds : Nat → String := fun n => "_id" ++ toString n

/-- Fresh-store state of the sessions variant: the mount-time loadData over
an empty localStorage, with no authenticated user. -/
def freshStateS (ids : Nat → String) : AppS.AppState :=
  let d := AppS.loadData ids .missing .missing .missing .missing .missing
  { users := d.users, programs := d.programs, sessions := d.sessions,
    groups := d.groups, products := d.products, currentUser := none }

/-- A sample client user of the sessions variant. -/
def mkClientS (id username : String) (joined purchased : List String) : AppS.User :=
  { id := id, username := username, password := "pw", role := "client",
    fullName := "", email := "", phone := "", goals := {}, waterGoal := 2,
    assignedProgramId := none, joinedSessions := joined, joinedGroups := [],
    purchasedProducts := purchased, metrics := [] }

/-- The seeded admin account of the sessions variant under `sampleIds`. -/
def adminUserS : AppS.User :=
  { id := sampleIds 0, username := "admin", password := "admin", role := "trainer",
    fullName := "מנהל סטודיו", email := "", phone := "", goals := {}, waterGoal := 2,
    assignedProgramId := none, joinedSessions := [], joinedGroups := [],
    purchasedProducts := [], metrics := [] }

/-- The record handleRegister appends for alice in the fresh-store scenario. -/
def aliceUser : AppS.User :=
  { id := "_id20", username := "alice", password := hashPassword "pw123", role := "client",
    fullName := "", email := "", phone := "", goals := {}, waterGoal := 2,
    assignedProgramId := none, joinedSessions := [], joinedGroups := [],
    purchasedProducts := [], metrics := [] }

/-- A capacity-2 session with nobody enrolled yet. -/
def cexSession : AppS.Session :=
  { id := "s1", title := "HIIT", date := "2025-01-01", time := "10:00",
    capacity := 2, description := "", participants := [] }

/-- Three distinct clients for the capacity scenario. -/
def cexU1 : AppS.User := mkClientS "u1" "user1" [] []

/-- Second client of the capacity scenario. -/
def cexU2 : AppS.User := mkClientS "u2" "user2" [] []

/-- Third client of the capacity scenario. -/
def cexU3 : AppS.User := mkClientS "u3" "user3" [] []

/-- Initial state of the capacity scenario, u1 logged in. -/
def cexSt0 : AppS.AppState :=
  { users := [cexU1, cexU2, cexU3], programs := [], sessions := [cexSession],
    groups := [], products := [], currentUser := some cexU1 }

/-- The capacity scenario after u1, u2 and u3 book the session in turn
(each switch of `currentUser` stands for the next user logging in). -/
def cexSt3 : AppS.AppState :=
  AppS.bookSession
    { AppS.bookSession
        { AppS.bookSession cexSt0 "s1" with currentUser := some cexU2 } "s1"
      with currentUser := some cexU3 } "s1"

/-- A session in which u1 is already enrolled. -/
def dblSession : AppS.Session :=
  { id := "s2", title := "Yoga", date := "2025-01-02", time := "09:00",
    capacity := 10, description := "", participants := ["u1"] }

/-- A group of which u1 is already a member. -/
def dblGroup : AppS.Group :=
  { id := "g1", title := "Running", date := "2025-01-02", time := "18:00",
    capacity := 10, description := "", members := ["u1"] }

/-- A state in which the logged-in u1 already booked s2 and joined g1. -/
def dblSt : AppS.AppState :=
  { users := [mkClientS "u1" "user1" ["s2"] []], programs := [],
    sessions := [dblSession], groups := [dblGroup], products := [],
    currentUser := some (mkClientS "u1" "user1" ["s2"] []) }

/-- A full (capacity 1, one stranger enrolled) session. -/
def fullSession : AppS.Session :=
  { id := "s9", title := "Spin", date := "2025-01-03", time := "08:00",
    capacity := 1, description := "", participants := ["u2"] }

/-- A state in which u1 is logged in and s9 is full. -/
def fullSt : AppS.AppState :=
  { users := [mkClientS "u1" "user1" [] []], programs := [], sessions := [fullSession],
    groups := [], products := [], currentUser := some (mkClientS "u1" "user1" [] []) }

/-- A client who already purchased prod1. -/
def buyerS : AppS.User := mkClientS "b1" "bob" [] ["prod1"]

/-- A state in which the logged-in buyer already owns prod1. -/
def buyerStateS : AppS.AppState :=
  { users := [buyerS], programs := [], sessions := [], groups := [],
    products := [{ id := "prod1", name := "Shake", price := 10, description := "" }],
    currentUser := some buyerS }

/-- A sample client of the workout variant. -/
def wUser : AppW.User :=
  { id := "u1", username := "bob", password := "pw", role := "client",
    fullName := "", email := "", phone := "", goals := {}, waterGoal := 2,
    assignedProgramId := none, completedWorkouts := [], metrics := [] }

/-- Workout-variant state with the sample client logged in. -/
def wState : AppW.AppState :=
  { users := [wUser], programs := [], workouts := [], exercises := [],
    currentUser := some wUser }

/-- Workout-variant state with nobody logged in. -/
def wStateNoUser : AppW.AppState :=
  { users := [wUser], programs := [], workouts := [], exercises := [],
    currentUser := none }

/-- Whether a stored value is absent-or-corrupt: the key is missing or the
stored string fails JSON.parse. -/
def Stored.isAbsent : Stored α → Bool
  | .missing => true
  | .corrupt => true
  | .parsed _ => false

/-! Helper lemmas. -/

/-- A map that fixes every element of a list is the identity on it. -/
theorem map_id_of_eq {α : Type} {l : List α} {f : α → α}
    (h : ∀ a ∈ l, f a = a) : l.map f = l := by
  induction l with
  | nil => rfl
  | cons a t ih =>
      simp only [List.map_cons, h a (List.mem_cons_self a t), List.cons.injEq, true_and]
      exact ih fun b hb => h b (List.mem_cons_of_mem a hb)

/-- An absent-or-corrupt stored value parses to the empty array. -/
theorem loadRaw_of_isAbsent {α : Type} {s : Stored (List α)}
    (h : s.isAbsent = true) : loadRaw s = [] := by
  cases s with
  | missing => rfl
  | corrupt => rfl
  | parsed v => simp [Stored.isAbsent] at h

/-- Validation of the SHA-256 model against the FIPS 180-4 test vector for "abc". -/
theorem sha256_abc_vector :
    hashPassword "abc" = "ba7816bf8f01cfea414140de5dae2223b00361a396177a9cb410ff61f20015ad" := by
  decide

/-- C10: with no authenticated user, bookSession, joinGroup and
purchaseProduct each return immediately: the state is unchanged and
purchaseProduct does not fault. -/
theorem missing_user_guards (st : AppS.AppState) (sid gid pid : String)
    (h : st.currentUser = none) :
    AppS.bookSession st sid = st ∧ AppS.joinGroup st gid = st ∧
    AppS.purchaseProduct st pid = some st := by
  refine ⟨?_, ?_, ?_⟩ <;>
    simp [AppS.bookSession, AppS.joinGroup, AppS.purchaseProduct, h]

/-- Witness for C10 at the fresh store (nobody logged in). -/
theorem missing_user_guards_wit :
    AppS.bookSession (freshStateS sampleIds) "s1" = freshStateS sampleIds ∧
    AppS.joinGroup (freshStateS sampleIds) "g1" = freshStateS sampleIds ∧
    AppS.purchaseProduct (freshStateS sampleIds) "p1" = some (freshStateS sampleIds) :=
  missing_user_guards (freshStateS sampleIds) "s1" "g1" "p1" rfl

/-- C8: purchasing a product already in the authenticated user's purchased
list is a complete no-op: the whole state (in particular the users
collection) is returned unchanged. -/
theorem purchase_twice_noop (st : AppS.AppState) (pid : String) (cu user : AppS.User)
    (hcu : st.currentUser = some cu)
    (hfind : st.users.find? (fun u => u.id == cu.id) = some user)
    (hmem : user.purchasedProducts.contains pid = true) :
    AppS.purchaseProduct st pid = some st := by
  have hmem' : pid ∈ user.purchasedProducts := by simpa using hmem
  simp [AppS.purchaseProduct, hcu, hfind, hmem']

/-- Witness for C8: the buyer who already owns prod1 buys it again. -/
theorem purchase_twice_noop_wit :
    AppS.purchaseProduct buyerStateS "prod1" = some buyerStateS :=
  purchase_twice_noop buyerStateS "prod1" buyerS buyerS rfl (by decide) (by decide)

/-- Counterexample to C1: capacity-2 session booked by three distinct
users; the third call leaves participants at ["u1", "u2"] as claimed, but
the third user's joined-sessions list DOES gain the session id, refuting
the claim's final clause. -/
theorem bookSession_capacity_scenario_cex :
    ((cexSt3.sessions.find? (fun s => s.id == "s1")).map
        (fun s => s.participants) = some ["u1", "u2"]) ∧
    ((cexSt3.users.find? (fun u => u.id == "u3")).map
        (fun u => u.joinedSessions) = some ["s1"]) := by
  decide

/-- C1 as amended: when every session matching the id is at or over
capacity, the sessions collection is unchanged, but the calling user's
joinedSessions still gains the session id (the user-side append of
bookSession is unconditional). -/
theorem bookSession_at_capacity_behavior (st : AppS.AppState) (sid : String)
    (cu : AppS.User) (hcu : st.currentUser = some cu)
    (hfull : ∀ s ∈ st.sessions, s.id = sid → (s.participants.length : Int) ≥ s.capacity) :
    (AppS.bookSession st sid).sessions = st.sessions ∧
    (AppS.bookSession st sid).users = st.users.map (fun u =>
      if u.id == cu.id then { u with joinedSessions := u.joinedSessions ++ [sid] }
      else u) := by
  constructor
  · simp only [AppS.bookSession, hcu]
    apply map_id_of_eq
    intro s hs
    by_cases hid : (s.id == sid) = true
    · have hid' : s.id = sid := by simpa using hid
      by_cases hc : cu.id ∈ s.participants
      · simp [hid, hc]
      · simp [hid, hc, hfull s hs hid']
    · simp [hid]
  · simp only [AppS.bookSession, hcu]

/-- Witness for the amended C1: u1 books the full session s9. -/
theorem bookSession_at_capacity_behavior_wit :
    (AppS.bookSession fullSt "s9").sessions = fullSt.sessions ∧
    (AppS.bookSession fullSt "s9").users = fullSt.users.map (fun u =>
      if u.id == "u1" then { u with joinedSessions := u.joinedSessions ++ ["s9"] }
      else u) :=
  bookSession_at_capacity_behavior fullSt "s9" (mkClientS "u1" "user1" [] []) rfl
    (by decide)

/-- Counterexample to C3: u1, already enrolled in session s2, books it
again; the sessions collection is indeed unchanged, but u1's
joinedSessions gains a duplicate id, so the call is not a complete no-op
on the users collection. -/
theorem double_enroll_not_noop_cex :
    ((AppS.bookSession dblSt "s2").sessions = dblSt.sessions) ∧
    ((AppS.bookSession dblSt "s2").users ≠ dblSt.users) ∧
    (((AppS.bookSession dblSt "s2").users.find? (fun u => u.id == "u1")).map
        (fun u => u.joinedSessions) = some ["s2", "s2"]) := by
  decide

/-- C3 as amended: booking a session (joining a group) the current user is
already enrolled in leaves the sessions (groups) collection unchanged, but
the user's joinedSessions (joinedGroups) list still gains the id — the
user-side append is unconditional, so the call is not a complete no-op. -/
theorem double_enroll_behavior (st : AppS.AppState) (sid gid : String)
    (cu : AppS.User) (hcu : st.currentUser = some cu)
    (hs : ∀ s ∈ st.sessions, s.id = sid → cu.id ∈ s.participants)
    (hg : ∀ g ∈ st.groups, g.id = gid → cu.id ∈ g.members) :
    (AppS.bookSession st sid).sessions = st.sessions ∧
    (AppS.bookSession st sid).users = st.users.map (fun u =>
      if u.id == cu.id then { u with joinedSessions := u.joinedSessions ++ [sid] }
      else u) ∧
    (AppS.joinGroup st gid).groups = st.groups ∧
    (AppS.joinGroup st gid).users = st.users.map (fun u =>
      if u.id == cu.id then { u with joinedGroups := u.joinedGroups ++ [gid] }
      else u) := by
  refine ⟨?_, ?_, ?_, ?_⟩
  · simp only [AppS.bookSession, hcu]
    apply map_id_of_eq
    intro s hmem
    by_cases hid : (s.id == sid) = true
    · have hid' : s.id = sid := by simpa using hid
      simp [hid, hs s hmem hid']
    · simp [hid]
  · simp only [AppS.bookSession, hcu]
  · simp only [AppS.joinGroup, hcu]
    apply map_id_of_eq
    intro g hmem
    by_cases hid : (g.id == gid) = true
    · have hid' : g.id = gid := by simpa using hid
      simp [hid, hg g hmem hid']
    · simp [hid]
  · simp only [AppS.joinGroup, hcu]

/-- Witness for the amended C3: u1 re-books s2 and re-joins g1. -/
theorem double_enroll_behavior_wit :
    (AppS.bookSession dblSt "s2").sessions = dblSt.sessions ∧
    (AppS.bookSession dblSt "s2").users = dblSt.users.map (fun u =>
      if u.id == "u1" then { u with joinedSessions := u.joinedSessions ++ ["s2"] }
      else u) ∧
    (AppS.joinGroup dblSt "g1").groups = dblSt.groups ∧
    (AppS.joinGroup dblSt "g1").users = dblSt.users.map (fun u =>
      if u.id == "u1" then { u with joinedGroups := u.joinedGroups ++ ["g1"] }
      else u) :=
  double_enroll_behavior dblSt "s2" "g1" (mkClientS "u1" "user1" ["s2"] []) rfl
    (by decide) (by decide)

/-- C2: registration with a username already present fails with
success:false and leaves the state (in particular the users collection)
unchanged; registration with an empty username or password also fails. -/
theorem register_duplicate_or_empty_rejected (st : AppS.AppState)
    (newId username password role : String) :
    ((∃ u ∈ st.users, u.username = username) →
      (AppS.handleRegister st newId username password role).1.success = false ∧
      (AppS.handleRegister st newId username password role).2 = st) ∧
    ((username = "" ∨ password = "") →
      (AppS.handleRegister st newId username password role).1.success = false) := by
  by_cases hemp : (username == "" || password == "") = true
  · constructor
    · intro _
      constructor <;> simp [AppS.handleRegister, hemp]
    · intro _
      simp [AppS.handleRegister, hemp]
  · constructor
    · rintro ⟨u, hu, huname⟩
      have hsome : (st.users.find? (fun u => u.username == username)).isSome = true :=
        List.find?_isSome.mpr ⟨u, hu, by simp [huname]⟩
      constructor <;> simp [AppS.handleRegister, hemp, hsome]
    · rintro (h | h) <;> simp [h] at hemp

/-- Witness for C2: duplicate "admin" and empty username on the fresh store. -/
theorem register_duplicate_or_empty_rejected_wit :
    ((AppS.handleRegister (freshStateS sampleIds) "_id20" "admin" "pw" "client").1.success
        = false ∧
      (AppS.handleRegister (freshStateS sampleIds) "_id20" "admin" "pw" "client").2
        = freshStateS sampleIds) ∧
    (AppS.handleRegister (freshStateS sampleIds) "_id20" "" "pw" "client").1.success
        = false :=
  ⟨(register_duplicate_or_empty_rejected (freshStateS sampleIds) "_id20" "admin" "pw"
      "client").1 (by decide),
   (register_duplicate_or_empty_rejected (freshStateS sampleIds) "_id20" "" "pw"
      "client").2 (Or.inl rfl)⟩

/-- C5: handleLogin never mutates any collection; an unknown username
fails with the "user not found" message, a credential mismatch fails with
the "wrong password" message, and a match succeeds and delivers the
matched user as the new current user. -/
theorem login_spec_cases (st : AppS.AppState) (username password : String) :
    (AppS.handleLogin st username password).2.users = st.users ∧
    (AppS.handleLogin st username password).2.programs = st.programs ∧
    (AppS.handleLogin st username password).2.sessions = st.sessions ∧
    (AppS.handleLogin st username password).2.groups = st.groups ∧
    (AppS.handleLogin st username password).2.products = st.products ∧
    (st.users.find? (fun u => u.username == username) = none →
      (AppS.handleLogin st username password).1 = ⟨false, some "משתמש לא נמצא"⟩ ∧
      (AppS.handleLogin st username password).2 = st) ∧
    (∀ user, st.users.find? (fun u => u.username == username) = some user →
      (((if user.password.length == 64 then hashPassword password else password)
          ≠ user.password) →
        (AppS.handleLogin st username password).1 = ⟨false, some "סיסמה שגויה"⟩ ∧
        (AppS.handleLogin st username password).2 = st) ∧
      (((if user.password.length == 64 then hashPassword password else password)
          = user.password) →
        (AppS.handleLogin st username password).1 = ⟨true, none⟩ ∧
        (AppS.handleLogin st username password).2
          = { st with currentUser := some user })) := by
  cases hfind : st.users.find? (fun u => u.username == username) with
  | none =>
      have hL : AppS.handleLogin st username password
          = (⟨false, some "משתמש לא נמצא"⟩, st) := by
        simp [AppS.handleLogin, hfind]
      exact ⟨by rw [hL], by rw [hL], by rw [hL], by rw [hL], by rw [hL],
        fun _ => ⟨by rw [hL], by rw [hL]⟩, fun user hu => Option.noConfusion hu⟩
  | some user =>
      cases hb : ((if user.password.length == 64 then hashPassword password
          else password) != user.password) with
      | false =>
          have heq : (if user.password.length == 64 then hashPassword password
              else password) = user.password := by simpa using hb
          have hL : AppS.handleLogin st username password
              = (⟨true, none⟩, { st with currentUser := some user }) := by
            simp only [AppS.handleLogin, hfind, hb]
            rfl
          refine ⟨by rw [hL], by rw [hL], by rw [hL], by rw [hL], by rw [hL],
            fun hn => Option.noConfusion hn, fun u hu => ?_⟩
          cases Option.some.inj hu
          exact ⟨fun hne => absurd heq hne, fun _ => ⟨by rw [hL], by rw [hL]⟩⟩
      | true =>
          have hne : ¬ (if user.password.length == 64 then hashPassword password
              else password) = user.password := by simpa using hb
          have hL : AppS.handleLogin st username password
              = (⟨false, some "סיסמה שגויה"⟩, st) := by
            simp only [AppS.handleLogin, hfind, hb]
            rfl
          refine ⟨by rw [hL], by rw [hL], by rw [hL], by rw [hL], by rw [hL],
            fun hn => Option.noConfusion hn, fun u hu => ?_⟩
          cases Option.some.inj hu
          exact ⟨fun _ => ⟨by rw [hL], by rw [hL]⟩, fun heq => absurd heq hne⟩

/-- Witness for C5 on the fresh store: unknown user, wrong password for
admin, and a successful admin login. -/
theorem login_spec_cases_wit :
    (AppS.handleLogin (freshStateS sampleIds) "nobody" "x").1
        = ⟨false, some "משתמש לא נמצא"⟩ ∧
    (AppS.handleLogin (freshStateS sampleIds) "admin" "bad").1
        = ⟨false, some "סיסמה שגויה"⟩ ∧
    (AppS.handleLogin (freshStateS sampleIds) "admin" "admin").1 = ⟨true, none⟩ :=
  ⟨((login_spec_cases (freshStateS sampleIds) "nobody" "x").2.2.2.2.2.1 (by decide)).1,
   (((login_spec_cases (freshStateS sampleIds) "admin" "bad").2.2.2.2.2.2 adminUserS
      (by decide)).1 (by decide)).1,
   (((login_spec_cases (freshStateS sampleIds) "admin" "admin").2.2.2.2.2.2 adminUserS
      (by decide)).2 (by decide)).1⟩

/-- C9: completeWorkout with an authenticated user appends exactly one
workout entry stamped with the user's id and the given timestamp, and
appends the new entry's id to that user's completed-workout list, leaving
programs and the exercise library unchanged; with no authenticated user it
does not produce a structured result but faults abruptly on the null
dereference of the current user (modelled as `none`). -/
theorem completeWorkout_spec (st : AppW.AppState) (pid : String)
    (results : List AppW.ExerciseResult) (notes now newId : String) :
    (st.currentUser = none →
      AppW.completeWorkout st pid results notes now newId = none) ∧
    (∀ cu, st.currentUser = some cu →
      ∃ st', AppW.completeWorkout st pid results notes now newId = some st' ∧
        ∃ w, st'.workouts = st.workouts ++ [w] ∧
          w.userId = cu.id ∧ w.date = now ∧ w.id = newId ∧
          w.programId = pid ∧ w.exercises = results ∧ w.notes = notes ∧
          st'.users = st.users.map (fun u =>
            if u.id == cu.id then
              { u with completedWorkouts := u.completedWorkouts ++ [newId] }
            else u) ∧
          st'.programs = st.programs ∧ st'.exercises = st.exercises) := by
  constructor
  · intro h
    simp [AppW.completeWorkout, h]
  · intro cu h
    simp only [AppW.completeWorkout, h]
    exact ⟨_, rfl, _, rfl, rfl, rfl, rfl, rfl, rfl, rfl, rfl, rfl, rfl⟩

/-- Witness for C9: the fault branch with nobody logged in, and the append
branch for the logged-in sample client. -/
theorem completeWorkout_spec_wit :
    (AppW.completeWorkout wStateNoUser "p1" [] "" "2025-01-01T00:00:00.000Z" "_w1"
        = none) ∧
    (∃ st', AppW.completeWorkout wState "p1" [] "" "2025-01-01T00:00:00.000Z" "_w1"
        = some st' ∧
      ∃ w, st'.workouts = wState.workouts ++ [w] ∧
        w.userId = wUser.id ∧ w.date = "2025-01-01T00:00:00.000Z" ∧ w.id = "_w1" ∧
        w.programId = "p1" ∧ w.exercises = [] ∧ w.notes = "" ∧
        st'.users = wState.users.map (fun u =>
          if u.id == wUser.id then
            { u with completedWorkouts := u.completedWorkouts ++ ["_w1"] }
          else u) ∧
        st'.programs = wState.programs ∧ st'.exercises = wState.exercises) :=
  ⟨(completeWorkout_spec wStateNoUser "p1" [] "" "2025-01-01T00:00:00.000Z" "_w1").1 rfl,
   (completeWorkout_spec wState "p1" [] "" "2025-01-01T00:00:00.000Z" "_w1").2 wUser rfl⟩

/-- C4: whenever the stored credential has length 64, handleLogin hashes
the input before comparing; concretely, registering alice with pw123 on a
fresh store succeeds and stores the 64-character lowercase-hex SHA-256
digest of the password (not the plaintext), and a subsequent login with
pw123 succeeds. -/
theorem register_login_hash_scenario :
    (∀ (st : AppS.AppState) (username password : String) (user : AppS.User),
        st.users.find? (fun u => u.username == username) = some user →
        user.password.length = 64 →
        (AppS.handleLogin st username password).1.success
          = (hashPassword password == user.password)) ∧
    (AppS.handleRegister (freshStateS sampleIds) "_id20" "alice" "pw123"
        "client").1.success = true ∧
    (AppS.handleRegister (freshStateS sampleIds) "_id20" "alice" "pw123"
        "client").2.users.find? (fun u => u.username == "alice") = some aliceUser ∧
    aliceUser.password = hashPassword "pw123" ∧
    aliceUser.password.length = 64 ∧
    (∀ c ∈ aliceUser.password.data, c.isDigit ∨ ('a' ≤ c ∧ c ≤ 'f')) ∧
    aliceUser.password ≠ "pw123" ∧
    (AppS.handleLogin
        (AppS.handleRegister (freshStateS sampleIds) "_id20" "alice" "pw123"
          "client").2 "alice" "pw123").1 = ⟨true, none⟩ := by
  constructor
  · intro st username password user hfind h64
    have hcond : (user.password.length == 64) = true := by simp [h64]
    simp only [AppS.handleLogin, hfind, hcond, if_true]
    cases hb : (hashPassword password != user.password) with
    | false =>
        have heq : hashPassword password = user.password := by simpa using hb
        simp [hb, heq]
    | true =>
        have hne : hashPassword password ≠ user.password := by simpa using hb
        simp [hb, hne]
  · refine ⟨by decide, by decide, by decide, by decide, by decide, by decide, by decide⟩

/-- Witness for the general clause of C4: after registering alice, login
compares the hash of the input against her stored digest. -/
theorem register_login_hash_scenario_wit :
    (AppS.handleLogin
        (AppS.handleRegister (freshStateS sampleIds) "_id20" "alice" "pw123"
          "client").2 "alice" "pw123").1.success
      = (hashPassword "pw123" == aliceUser.password) :=
  register_login_hash_scenario.1
    (AppS.handleRegister (freshStateS sampleIds) "_id20" "alice" "pw123" "client").2
    "alice" "pw123" aliceUser (by decide) (by decide)

/-- Counterexample to C6's distinctness clause: the six seeded library
exercises do not span pairwise-distinct muscle groups — the first and the
sixth both target "רגליים" (legs), so the muscle-group list has a
duplicate. -/
theorem seed_exercises_distinct_cex :
    ((AppW.loadData sampleIds .missing .missing .missing .missing).exercises.map
        (fun e => e.muscleGroup))
      = ["רגליים", "חזה", "גב", "כתפיים", "בטן", "רגליים"] ∧
    ¬ ((AppW.loadData sampleIds .missing .missing .missing .missing).exercises.map
        (fun e => e.muscleGroup)).Nodup := by
  decide

/-- C6 as amended: each collection is seeded exactly when it is empty
after load and a non-empty loaded collection is returned unmodified; an
empty users collection gets exactly one trainer and one client with fixed
credentials, and an empty exercise library gets exactly six fixed entries
covering five distinct muscle groups (legs appears twice). -/
theorem seed_iff_empty_behavior (ids : Nat → String)
    (uW : Stored (List AppW.User)) (pW : Stored (List AppW.Program))
    (wW : Stored (List AppW.Workout)) (eW : Stored (List AppW.Exercise))
    (uS : Stored (List AppS.User)) (pS : Stored (List AppS.Program))
    (sS : Stored (List AppS.Session)) (gS : Stored (List AppS.Group))
    (prS : Stored (List AppS.Product)) :
    (loadRaw uW = [] → (AppW.loadData ids uW pW wW eW).users = AppW.seedUsers ids) ∧
    (loadRaw uW ≠ [] → (AppW.loadData ids uW pW wW eW).users = loadRaw uW) ∧
    (loadRaw pW = [] →
      (AppW.loadData ids uW pW wW eW).programs = AppW.seedPrograms ids) ∧
    (loadRaw pW ≠ [] → (AppW.loadData ids uW pW wW eW).programs = loadRaw pW) ∧
    ((AppW.loadData ids uW pW wW eW).workouts = loadRaw wW) ∧
    (loadRaw eW = [] →
      (AppW.loadData ids uW pW wW eW).exercises = AppW.seedExercises ids) ∧
    (loadRaw eW ≠ [] → (AppW.loadData ids uW pW wW eW).exercises = loadRaw eW) ∧
    (loadRaw uS = [] →
      (AppS.loadData ids uS pS sS gS prS).users = AppS.seedUsers ids) ∧
    (loadRaw uS ≠ [] → (AppS.loadData ids uS pS sS gS prS).users = loadRaw uS) ∧
    (loadRaw pS = [] →
      (AppS.loadData ids uS pS sS gS prS).programs = AppS.seedPrograms ids) ∧
    (loadRaw pS ≠ [] → (AppS.loadData ids uS pS sS gS prS).programs = loadRaw pS) ∧
    ((AppS.loadData ids uS pS sS gS prS).sessions = loadRaw sS) ∧
    ((AppS.loadData ids uS pS sS gS prS).groups = loadRaw gS) ∧
    ((AppS.loadData ids uS pS sS gS prS).products = loadRaw prS) ∧
    ((AppW.seedUsers ids).map (fun u => (u.username, u.password, u.role))
      = [("admin", "admin", "trainer"), ("demo", "demo", "client")]) ∧
    ((AppS.seedUsers ids).map (fun u => (u.username, u.password, u.role))
      = [("admin", "admin", "trainer"), ("demo", "demo", "client")]) ∧
    ((AppW.seedExercises ids).length = 6) ∧
    ((AppW.seedExercises ids).map (fun e => e.muscleGroup)
      = ["רגליים", "חזה", "גב", "כתפיים", "בטן", "רגליים"]) := by
  refine ⟨fun h => by simp [AppW.loadData, h], fun h => by simp [AppW.loadData, h],
    fun h => by simp [AppW.loadData, h], fun h => by simp [AppW.loadData, h],
    by simp [AppW.loadData],
    fun h => by simp [AppW.loadData, h], fun h => by simp [AppW.loadData, h],
    fun h => by simp [AppS.loadData, h], fun h => by simp [AppS.loadData, h],
    fun h => by simp [AppS.loadData, h], fun h => by simp [AppS.loadData, h],
    by simp [AppS.loadData], by simp [AppS.loadData], by simp [AppS.loadData],
    by simp [AppW.seedUsers], by simp [AppS.seedUsers],
    by simp [AppW.seedExercises], by simp [AppW.seedExercises]⟩

/-- Witness for the amended C6: an empty store seeds users and exercises,
and a non-empty users collection is kept as loaded. -/
theorem seed_iff_empty_behavior_wit :
    ((AppW.loadData sampleIds .missing .missing .missing .missing).users
      = AppW.seedUsers sampleIds) ∧
    ((AppW.loadData sampleIds .missing .missing .missing .missing).exercises
      = AppW.seedExercises sampleIds) ∧
    ((AppW.loadData sampleIds (.parsed [wUser]) .missing .missing .missing).users
      = [wUser]) :=
  ⟨(seed_iff_empty_behavior sampleIds .missing .missing .missing .missing
      .missing .missing .missing .missing .missing).1 rfl,
   (seed_iff_empty_behavior sampleIds .missing .missing .missing .missing
      .missing .missing .missing .missing .missing).2.2.2.2.2.1 rfl,
   (seed_iff_empty_behavior sampleIds (.parsed [wUser]) .missing .missing .missing
      .missing .missing .missing .missing .missing).2.1 (by decide)⟩

/-- C7: for every collection key, a missing key or a corrupt (non-JSON)
stored value never raises — loadData is total and yields the documented
default: the seeded defaults for users, programs and the exercise library,
and the empty sequence for workouts, sessions, groups and products. -/
theorem load_corrupt_defaults (ids : Nat → String)
    (uW : Stored (List AppW.User)) (pW : Stored (List AppW.Program))
    (wW : Stored (List AppW.Workout)) (eW : Stored (List AppW.Exercise))
    (uS : Stored (List AppS.User)) (pS : Stored (List AppS.Program))
    (sS : Stored (List AppS.Session)) (gS : Stored (List AppS.Group))
    (prS : Stored (List AppS.Product)) :
    (uW.isAbsent = true → (AppW.loadData ids uW pW wW eW).users = AppW.seedUsers ids) ∧
    (pW.isAbsent = true →
      (AppW.loadData ids uW pW wW eW).programs = AppW.seedPrograms ids) ∧
    (wW.isAbsent = true → (AppW.loadData ids uW pW wW eW).workouts = []) ∧
    (eW.isAbsent = true →
      (AppW.loadData ids uW pW wW eW).exercises = AppW.seedExercises ids) ∧
    (uS.isAbsent = true →
      (AppS.loadData ids uS pS sS gS prS).users = AppS.seedUsers ids) ∧
    (pS.isAbsent = true →
      (AppS.loadData ids uS pS sS gS prS).programs = AppS.seedPrograms ids) ∧
    (sS.isAbsent = true → (AppS.loadData ids uS pS sS gS prS).sessions = []) ∧
    (gS.isAbsent = true → (AppS.loadData ids uS pS sS gS prS).groups = []) ∧
    (prS.isAbsent = true → (AppS.loadData ids uS pS sS gS prS).products = []) := by
  refine ⟨fun h => ?_, fun h => ?_, fun h => ?_, fun h => ?_, fun h => ?_,
    fun h => ?_, fun h => ?_, fun h => ?_, fun h => ?_⟩ <;>
    simp [AppW.loadData, AppS.loadData, loadRaw_of_isAbsent h]

/-- Witness for C7: a store in which every key holds corrupt JSON loads
the seeded defaults and empty sequences. -/
theorem load_corrupt_defaults_wit :
    ((AppW.loadData sampleIds .corrupt .corrupt .corrupt .corrupt).users
      = AppW.seedUsers sampleIds) ∧
    ((AppW.loadData sampleIds .corrupt .corrupt .corrupt .corrupt).workouts = []) ∧
    ((AppS.loadData sampleIds .corrupt .corrupt .corrupt .corrupt .corrupt).sessions
      = []) ∧
    ((AppS.loadData sampleIds .corrupt .corrupt .corrupt .corrupt .corrupt).products
      = []) :=
  ⟨(load_corrupt_defaults sampleIds .corrupt .corrupt .corrupt .corrupt
      .corrupt .corrupt .corrupt .corrupt .corrupt).1 rfl,
   (load_corrupt_defaults sampleIds .corrupt .corrupt .corrupt .corrupt
      .corrupt .corrupt .corrupt .corrupt .corrupt).2.2.1 rfl,
   (load_corrupt_defaults sampleIds .corrupt .corrupt .corrupt .corrupt
      .corrupt .corrupt .corrupt .corrupt .corrupt).2.2.2.2.2.2.1 rfl,
   (load_corrupt_defaults sampleIds .corrupt .corrupt .corrupt .corrupt
      .corrupt .corrupt .corrupt .corrupt .corrupt).2.2.2.2.2.2.2.2 rfl⟩
